import Mathlib

/-!
Verification of the Haven CLI JS runtime: a shallow embedding of the
hybrid-encryption engine (`hybrid-crypto.ts`), the Lit wrapper
(`lit-wrapper.ts`), the JSON-RPC dispatcher and main loop (`main.ts`),
the metadata codec and the Synapse download CID validation
(`synapse-wrapper.ts`).

Conventions of the embedding:
- JS byte arrays (`Uint8Array`) are `List Nat` with every element `< 256`.
- JS strings that are only constructed/compared are Lean `String`;
  strings whose characters are inspected (base64 text, CIDs) are
  `List Nat` of char codes or `List Char`.
- `async` control flow is sequential composition; each external call
  (Web Crypto, the Lit SDK client, `fetch`) is a parameter of the
  embedded function, an `Option`/`Except` value standing for the call
  either returning a value or throwing.
- A thrown JS exception is an `Except.error`; `try`/`catch` is a match
  on that value.
- Mutation of a local buffer (`aesKey.fill(0)`) is tracked by an extra
  boolean output recording whether the buffer was zeroed before return.
-/

namespace Haven

/-! ## JSON values (result of `JSON.parse`) -/

/-- A parsed JSON value.  `obj` keeps fields in order; property access
takes the last binding of a key, as `JSON.parse` does. -/
inductive Json where
  | str (s : String)
  | num (n : Int)
  | bool (b : Bool)
  | null
  | arr (xs : List Json)
  | obj (fields : List (String × Json))
deriving Repr

/-- JS property access `parsed.key` on a parsed JSON value:
`none` models `undefined`. -/
def jsonGet (j : Json) (key : String) : Option Json :=
  match j with
  | .obj fields => fields.foldl (fun acc p => if p.fst = key then some p.snd else acc) none
  | _ => none

/-- JS truthiness test `!v` for a property that may be absent:
`undefined`, `null`, `false`, `0` and the empty string are falsy. -/
def isFalsyField (v : Option Json) : Bool :=
  match v with
  | none => true
  | some .null => true
  | some (.bool false) => true
  | some (.num 0) => true
  | some (.str "") => true
  | _ => false

/-- The strict comparison `parsed.version === 'hybrid-v1'`. -/
def versionMatches (v : Option Json) : Bool :=
  match v with
  | some (.str s) => s = "hybrid-v1"
  | _ => false

/-! ## Metadata codec (`deserializeHybridMetadata`, hybrid-crypto.ts) -/

inductive MetaError where
  | unsupportedVersion
  | missingRequiredFields
deriving Repr, DecidableEq

/-- `deserializeHybridMetadata` after `JSON.parse`: rejects a version
other than `hybrid-v1` first, then rejects when `encryptedKey`,
`keyHash` or `iv` is falsy, otherwise returns the parsed object
unchanged (unknown fields preserved). -/
def deserializeHybridMetadata (parsed : Json) : Except MetaError Json :=
  if versionMatches (jsonGet parsed "version") then
    if isFalsyField (jsonGet parsed "encryptedKey")
        || isFalsyField (jsonGet parsed "keyHash")
        || isFalsyField (jsonGet parsed "iv") then
      .error .missingRequiredFields
    else
      .ok parsed
  else
    .error .unsupportedVersion

/-! ## Base64 (`arrayBufferToBase64` / `base64ToArrayBuffer` composed
with the platform `btoa` / `atob`), hybrid-crypto.ts.

Byte lists are encoded to the char codes of the standard base64
alphabet with `=` (code 61) padding. -/

/-- Char code of the base64 digit for a sextet value. -/
def b64CharOf (n : Nat) : Nat :=
  if n < 26 then 65 + n
  else if n < 52 then 97 + (n - 26)
  else if n < 62 then 48 + (n - 52)
  else if n = 62 then 43
  else 47

/-- Sextet value of a base64 digit char code. -/
def b64ValOf (c : Nat) : Nat :=
  if 65 ≤ c ∧ c ≤ 90 then c - 65
  else if 97 ≤ c ∧ c ≤ 122 then c - 97 + 26
  else if 48 ≤ c ∧ c ≤ 57 then c - 48 + 52
  else if c = 43 then 62
  else 63

/-- `btoa` on a binary string of bytes: char codes of the base64 text. -/
def b64Encode : List Nat → List Nat
  | [] => []
  | [a] => [b64CharOf (a / 4), b64CharOf (a % 4 * 16), 61, 61]
  | [a, b] => [b64CharOf (a / 4), b64CharOf (a % 4 * 16 + b / 16), b64CharOf (b % 16 * 4), 61]
  | a :: b :: c :: rest =>
      b64CharOf (a / 4) :: b64CharOf (a % 4 * 16 + b / 16) ::
      b64CharOf (b % 16 * 4 + c / 64) :: b64CharOf (c % 64) :: b64Encode rest

/-- `atob` back to bytes (on well-formed base64 text). -/
def b64Decode : List Nat → List Nat
  | c1 :: c2 :: c3 :: c4 :: rest =>
      if c3 = 61 then
        [b64ValOf c1 * 4 + b64ValOf c2 / 16]
      else if c4 = 61 then
        [b64ValOf c1 * 4 + b64ValOf c2 / 16,
         b64ValOf c2 % 16 * 16 + b64ValOf c3 / 4]
      else
        (b64ValOf c1 * 4 + b64ValOf c2 / 16) ::
        (b64ValOf c2 % 16 * 16 + b64ValOf c3 / 4) ::
        (b64ValOf c3 % 4 * 64 + b64ValOf c4) ::
        b64Decode rest
  | _ => []


structure ReturnValueTest where
  comparator : String
  value : String
deriving Repr, DecidableEq

structure AccessCondition where
  contractAddress : String
  standardContractType : String
  chain : String
  method : String
  parameters : List String
  returnValueTest : ReturnValueTest
deriving Repr, DecidableEq

/-- `createOwnerOnlyAccessControlConditions` (hybrid-crypto.ts): a single
identity condition comparing `:userAddress` to the lowercased wallet. -/
def createOwnerOnlyAccessControlConditions (walletAddress : String) : List AccessCondition :=
  [{ contractAddress := ""
     standardContractType := ""
     chain := "ethereum"
     method := ""
     parameters := [":userAddress"]
     returnValueTest := { comparator := "=", value := walletAddress.toLower } }]

/-! ## Hybrid encryption engine (hybrid-crypto.ts)

`hybridEncryptFileRun` / `hybridDecryptFileRun` embed `hybridEncryptFile`
and `hybridDecryptFile`.  The random key and IV, the SHA-256 function and
the outcome of each external call (Web Crypto AES-GCM, `initLitClient`,
the Lit client `encrypt`/`decrypt`, `getAuthContext`) are parameters:
`none` stands for the call throwing.  The second component of the result
records whether the local AES key buffer was zeroed (`aesKey.fill(0)`
executed, or in decryption also: the key was never materialised) before
the function returned or threw. -/

structure HybridMeta where
  version : String
  encryptedKey : String
  keyHash : String
  /-- char codes of the base64 string stored in the `iv` field -/
  iv : List Nat
  algorithm : String
  keyLength : Nat
  accessControlConditions : List AccessCondition
  chain : String
  originalMimeType : Option String := none
  originalSize : Option Nat := none
  /-- the hex digest, abstracted to the byte list the hash function returns -/
  originalHash : Option (List Nat) := none
deriving Repr, DecidableEq

structure HybridEncryptionResult where
  encryptedFile : List Nat
  metadata : HybridMeta
deriving Repr, DecidableEq

inductive HybridError where
  | unsupportedVersion (v : String)
  | aesDecryptionFailed
  | integrityCheckFailed
  | externalFailure (stage : String)
deriving Repr, DecidableEq

/-- `hybridEncryptFile`: AES-seal the data, hash the plaintext, init the
Lit client, wrap the AES key, build the metadata, then zero the key.
The `fill(0)` sits after metadata construction on the success path only:
the boolean output is `false` on every throwing path. -/
def hybridEncryptFileRun (fileData aesKey iv : List Nat) (walletAddress chain : String)
    (sha256Hash : List Nat → List Nat)
    (aesEncrypt : List Nat → List Nat → List Nat → Option (List Nat))
    (initOutcome : Option Unit)
    (litEncrypt : List Nat → Option (String × String)) :
    Except HybridError HybridEncryptionResult × Bool :=
  match aesEncrypt fileData aesKey iv with
  | none => (.error (.externalFailure "aesEncrypt"), false)
  | some encryptedFile =>
    let originalHash := sha256Hash fileData
    match initOutcome with
    | none => (.error (.externalFailure "initLitClient"), false)
    | some _ =>
      let accessControlConditions := createOwnerOnlyAccessControlConditions walletAddress
      match litEncrypt aesKey with
      | none => (.error (.externalFailure "litEncrypt"), false)
      | some (ciphertext, dataToEncryptHash) =>
        let metadata : HybridMeta :=
          { version := "hybrid-v1"
            encryptedKey := ciphertext
            keyHash := dataToEncryptHash
            iv := b64Encode iv
            algorithm := "AES-GCM"
            keyLength := 256
            accessControlConditions := accessControlConditions
            chain := chain
            originalSize := some fileData.length
            originalHash := some originalHash }
        (.ok { encryptedFile := encryptedFile, metadata := metadata }, true)

/-- `hybridDecryptFile`: version gate, init, auth context, unwrap the AES
key via the Lit client, then inside `try`/`finally` (the `finally` zeroes
the key) AES-open the ciphertext and verify `originalHash` when present.
`aesDecrypt` maps the ciphertext/key/iv to `none` when AES-GCM
authentication fails. -/
def hybridDecryptFileRun (encryptedFile : List Nat) (metadata : HybridMeta)
    (sha256Hash : List Nat → List Nat)
    (initOutcome : Option Unit)
    (authOutcome : Option Unit)
    (litDecrypt : String → String → Option (List Nat))
    (aesDecrypt : List Nat → List Nat → List Nat → Option (List Nat)) :
    Except HybridError (List Nat) × Bool :=
  if metadata.version ≠ "hybrid-v1" then
    (.error (.unsupportedVersion metadata.version), true)
  else
    match initOutcome with
    | none => (.error (.externalFailure "initLitClient"), true)
    | some _ =>
      match authOutcome with
      | none => (.error (.externalFailure "getAuthContext"), true)
      | some _ =>
        match litDecrypt metadata.encryptedKey metadata.keyHash with
        | none => (.error (.externalFailure "litDecrypt"), true)
        | some aesKey =>
          match aesDecrypt encryptedFile aesKey (b64Decode metadata.iv) with
          | none => (.error .aesDecryptionFailed, true)
          | some decryptedData =>
            match metadata.originalHash with
            | some h =>
              if sha256Hash decryptedData ≠ h then
                (.error .integrityCheckFailed, true)
              else
                (.ok decryptedData, true)
            | none => (.ok decryptedData, true)

/-! ## Lit wrapper `encrypt` (lit-wrapper.ts, `LitWrapperImpl.encrypt`)

Parameter validation precedes the Lit client call.  `data` and
`accessControlConditions` come from the params record, so each may be
absent; `!data` is also true for the empty string, and the policy check
is `!accessControlConditions || accessControlConditions.length === 0`.
The boolean output records whether `client.encrypt` was invoked. -/

inductive LitWrapError where
  | notConnected
  | missingData
  | missingAccessControlConditions
  | encryptionFailed (msg : String)
deriving Repr, DecidableEq

structure LitEncryptResult where
  ciphertext : String
  dataToEncryptHash : String
  accessControlConditionHash : String
deriving Repr, DecidableEq

def litWrapperEncrypt (isConnected clientPresent : Bool)
    (data : Option String)
    (accessControlConditions : Option (List AccessCondition))
    (chain : String)
    (clientEncrypt : List AccessCondition → String → Option (String × String))
    (accHash : String) :
    Except LitWrapError LitEncryptResult × Bool :=
  if ¬(isConnected && clientPresent) then (.error .notConnected, false)
  else if data = none ∨ data = some "" then (.error .missingData, false)
  else
    match accessControlConditions with
    | none => (.error .missingAccessControlConditions, false)
    | some acc =>
      if acc.isEmpty then (.error .missingAccessControlConditions, false)
      else
        match clientEncrypt acc chain with
        | none => (.error (.encryptionFailed "Encryption failed"), true)
        | some (ciphertext, dataToEncryptHash) =>
          (.ok { ciphertext := ciphertext
                 dataToEncryptHash := dataToEncryptHash
                 accessControlConditionHash := accHash }, true)

/-! ## JSON-RPC dispatcher and main loop (main.ts) -/

inductive ReqId where
  | str (s : String)
  | num (n : Int)
deriving Repr, DecidableEq

/-- The `id` property of a parsed message: absent (`undefined`), `null`,
or a string/number value. -/
inductive IdField where
  | absent
  | null
  | idVal (v : ReqId)
deriving Repr, DecidableEq

structure Request where
  method : String
  params : Json
  id : IdField

/-- `id === undefined || id === null` (main.ts, handleRequest). -/
def isNotification (req : Request) : Bool :=
  match req.id with
  | .absent => true
  | .null => true
  | .idVal _ => false

def idValue : IdField → Option ReqId
  | .absent => none
  | .null => none
  | .idVal v => some v

structure RpcError where
  code : Int
  message : String
  data : Option String := none

inductive Response where
  | success (id : Option ReqId) (result : Json)
  | failure (id : Option ReqId) (error : RpcError)

def responseIdOf : Response → Option ReqId
  | .success i _ => i
  | .failure i _ => i

/-- A method handler: `.error msg` stands for the handler throwing. -/
def Handler : Type := Json → Except String Json

/-- `handleRequest` (main.ts): look the method up, run the handler inside
`try`/`catch`, and send at most one response — none for notifications. -/
def handleRequest (methods : String → Option Handler) (req : Request) : List Response :=
  match methods req.method with
  | none =>
    if isNotification req then []
    else [.failure (idValue req.id) { code := -32601, message := "Method not found: " ++ req.method }]
  | some handler =>
    match handler req.params with
    | .ok result =>
      if isNotification req then []
      else [.success (idValue req.id) result]
    | .error msg =>
      if isNotification req then []
      else [.failure (idValue req.id) { code := -32603, message := msg }]

/-- One trimmed line of the stdin stream, after `JSON.parse`:
empty (skipped), unparseable, or a parsed message. -/
inductive RawLine where
  | empty
  | malformed (msg : String)
  | request (req : Request)

/-- A line written to stdout: a response or a server notification. -/
inductive OutMsg where
  | response (r : Response)
  | notification (method : String) (params : Json)

/-- Processing of one complete line inside `main`'s read loop:
empty lines are skipped, a `JSON.parse` failure produces a ParseError
response with `id: null`, and a parsed message is handed to
`handleRequest`, awaited to completion. -/
def processLine (methods : String → Option Handler) : RawLine → List OutMsg
  | .empty => []
  | .malformed msg =>
    [.response (.failure none { code := -32700, message := "Parse error", data := some msg })]
  | .request req => (handleRequest methods req).map .response

/-- The `ready` notification `main` emits at startup. -/
def readyMsg : OutMsg :=
  .notification "ready" (.obj [("version", .str "1.0.0")])

/-- `main` (main.ts): emit `ready`, then process the stream's complete
lines strictly sequentially, each handler awaited before the next line
is parsed, so the per-line outputs are concatenated in line order. -/
def mainOutputs (methods : String → Option Handler) (lines : List RawLine) : List OutMsg :=
  readyMsg :: (lines.map (processLine methods)).flatten

/-- The ids of the responses among the emitted messages, in emission
order (`none` is the JSON `null` id of a ParseError response). -/
def emittedResponseIds (outs : List OutMsg) : List (Option ReqId) :=
  outs.filterMap fun o =>
    match o with
    | .response r => some (responseIdOf r)
    | .notification _ _ => none

/-- The response id a line is owed: none for empty lines and
notifications, the null id for malformed lines, the request id
otherwise. -/
def lineExpectedId : RawLine → Option (Option ReqId)
  | .empty => none
  | .malformed _ => some none
  | .request req => if isNotification req then none else some (idValue req.id)

/-- The `ping` entry of the method registry (main.ts):
`ping: async () => 'pong'`. -/
def pingHandler : Handler := fun _ => .ok (.str "pong")

/-- The method registry with `ping` bound as in main.ts and the
remaining (effectful) methods abstracted by `rest`. -/
def methodsWith (rest : String → Option Handler) : String → Option Handler :=
  fun m => if m = "ping" then some pingHandler else rest m

/-! ## Module-global Lit client state and `initLitClient`
(hybrid-crypto.ts).  The client, auth manager and in-flight promise are
abstracted to opaque tokens (`Nat`). -/

structure LitGlobals where
  litClient : Option Nat
  authManager : Option Nat
  initPromise : Option Nat
deriving Repr, DecidableEq

/-- `isLitClientConnected`: `litClient !== null && authManager !== null`. -/
def isLitClientConnected (g : LitGlobals) : Bool :=
  g.litClient.isSome && g.authManager.isSome

/-- What a call of `initLitClient` does before any awaiting happens. -/
inductive InitCall where
  /-- returned the already-initialized client -/
  | existing (client : Nat)
  /-- returned the already in-flight initialization promise -/
  | joined (p : Nat)
  /-- stored and returned a fresh initialization promise -/
  | started (p : Nat)
deriving Repr, DecidableEq

/-- The synchronous prefix of `initLitClient`: return the existing client
when both `litClient` and `authManager` are set; otherwise return the
in-flight `initPromise` when present; otherwise store a fresh promise. -/
def initLitClientCall (g : LitGlobals) (freshPromise : Nat) : LitGlobals × InitCall :=
  match g.litClient, g.authManager with
  | some c, some _ => (g, .existing c)
  | _, _ =>
    match g.initPromise with
    | some p => (g, .joined p)
    | none => ({ g with initPromise := some freshPromise }, .started freshPromise)

/-- Settling of the started initialization body: on success the client
and auth manager are stored; on failure (`outcome = none`) the `catch`
nulls both; the `finally` always nulls `initPromise`. -/
def initLitClientResolve (outcome : Option (Nat × Nat)) : LitGlobals :=
  match outcome with
  | some (c, a) => { litClient := some c, authManager := some a, initPromise := none }
  | none => { litClient := none, authManager := none, initPromise := none }

/-! ## Lit wrapper connection state (lit-wrapper.ts, `LitWrapperImpl`) -/

structure WrapperState where
  client : Option Nat
  authManager : Option Nat
  isConnectedFlag : Bool
  network : String
  sessionExpiry : Option Nat
  nodeCount : Nat
deriving Repr, DecidableEq

structure LitConnectResult where
  connected : Bool
  network : String
  nodeCount : Nat
deriving Repr, DecidableEq

/-- `LitWrapperImpl.connect`: on success store the client and auth
manager, set the flag, network, node count and a one-hour session
expiry; in the `catch`, clear the flag, client and auth manager and
rethrow.  `outcome = none` stands for `createLitClient` (or
`createAuthManager`) throwing; `now` is `Date.now()` in ms. -/
def wrapperConnect (st : WrapperState) (network : String) (now : Nat)
    (outcome : Option (Nat × Nat)) : WrapperState × Except String LitConnectResult :=
  match outcome with
  | some (c, a) =>
    ({ client := some c
       authManager := some a
       isConnectedFlag := true
       network := network
       sessionExpiry := some (now + 60 * 60 * 1000)
       nodeCount := 1 },
     .ok { connected := true, network := network, nodeCount := 1 })
  | none =>
    ({ st with isConnectedFlag := false, client := none, authManager := none },
     .error "Failed to connect to Lit Protocol")

/-- The wrapper's `isConnected` getter:
`this._isConnected && isLitClientConnected()`. -/
def wrapperIsConnected (st : WrapperState) (g : LitGlobals) : Bool :=
  st.isConnectedFlag && isLitClientConnected g

/-! ## CID validation and download front end (synapse-wrapper.ts) -/

/-- The regex class `[1-9A-HJ-NP-Za-km-z]` (base58). -/
def isBase58Char (c : Char) : Bool :=
  ('1' ≤ c && c ≤ '9') || ('A' ≤ c && c ≤ 'H') || ('J' ≤ c && c ≤ 'N') ||
  ('P' ≤ c && c ≤ 'Z') || ('a' ≤ c && c ≤ 'k') || ('m' ≤ c && c ≤ 'z')

/-- The regex class `[a-z2-7]` (base32). -/
def isBase32Char (c : Char) : Bool :=
  ('a' ≤ c && c ≤ 'z') || ('2' ≤ c && c ≤ '7')

/-- `isValidCid`: the anchored regex
`^(Qm[1-9A-HJ-NP-Za-km-z]{44}|baf[a-z2-7]{55,})$` — the literal prefix
`Qm` (resp. `baf`) followed by exactly 44 base58 (resp. at least 55
base32) characters, and nothing else. -/
def isValidCid (s : List Char) : Bool :=
  (match s with
   | c1 :: c2 :: rest =>
     decide (c1 = 'Q') && decide (c2 = 'm')
       && decide (rest.length = 44) && rest.all isBase58Char
   | _ => false)
  ||
  (match s with
   | c1 :: c2 :: c3 :: rest =>
     decide (c1 = 'b') && decide (c2 = 'a') && decide (c3 = 'f')
       && decide (55 ≤ rest.length) && rest.all isBase32Char
   | _ => false)

/-- The CIDv0 shape in the words of the claim: `Qm` followed by exactly
44 base58 characters. -/
def cidV0Shape (s : List Char) : Prop :=
  ∃ t, s = 'Q' :: 'm' :: t ∧ t.length = 44 ∧ ∀ c ∈ t, isBase58Char c

/-- The CIDv1 shape in the words of the claim: `baf` followed by 55 or
more base32 characters. -/
def cidV1Shape (s : List Char) : Prop :=
  ∃ t, s = 'b' :: 'a' :: 'f' :: t ∧ 55 ≤ t.length ∧ ∀ c ∈ t, isBase32Char c

/-- `String.prototype.trim` whitespace (the characters that occur in
line-delimited CLI input). -/
def isJsWhitespace (c : Char) : Bool :=
  c = ' ' || c = '\t' || c = '\n' || c = '\r'

/-- `cid.trim()`. -/
def jsTrim (s : List Char) : List Char :=
  ((s.dropWhile isJsWhitespace).reverse.dropWhile isJsWhitespace).reverse

inductive DownloadError where
  | notConnected
  | missingCid
  | missingOutputPath
  | invalidCidFormat
  | gatewayFailure
deriving Repr, DecidableEq

structure DownloadResult where
  size : Nat
  cid : List Char
deriving Repr, DecidableEq

/-- `SynapseWrapperImpl.download` up to and including the gateway loop:
connection gate, falsy checks on `cid` and `outputPath`, `cid.trim()`,
`isValidCid` gate, then the gateway fetch loop (abstracted to its
overall outcome).  The boolean output records whether any gateway was
contacted. -/
def synapseDownload (isConnected : Bool)
    (cid outputPath : Option (List Char))
    (gatewayOutcome : Option (List Nat)) :
    Except DownloadError DownloadResult × Bool :=
  if ¬isConnected then (.error .notConnected, false)
  else
    match cid with
    | none => (.error .missingCid, false)
    | some cidRaw =>
      if cidRaw = [] then (.error .missingCid, false)
      else
        match outputPath with
        | none => (.error .missingOutputPath, false)
        | some path =>
          if path = [] then (.error .missingOutputPath, false)
          else
            let cidT := jsTrim cidRaw
            if ¬isValidCid cidT then (.error .invalidCidFormat, false)
            else
              match gatewayOutcome with
              | none => (.error .gatewayFailure, true)
              | some data => (.ok { size := data.length, cid := cidT }, true)

/-! ## Helper lemmas -/

theorem b64ValOf_b64CharOf : ∀ n, n < 64 → b64ValOf (b64CharOf n) = n := by decide

theorem b64CharOf_ne_pad : ∀ n, n < 64 → b64CharOf n ≠ 61 := by decide

theorem b64_roundtrip : ∀ l : List Nat, (∀ x ∈ l, x < 256) → b64Decode (b64Encode l) = l
  | [], _ => rfl
  | [a], h => by
    have ha : a < 256 := h a (by simp)
    have h1 : a / 4 < 64 := by omega
    have h2 : a % 4 * 16 < 64 := by omega
    simp [b64Encode, b64Decode,
      b64ValOf_b64CharOf _ h1, b64ValOf_b64CharOf _ h2]
    omega
  | [a, b], h => by
    have ha : a < 256 := h a (by simp)
    have hb : b < 256 := h b (by simp)
    have h1 : a / 4 < 64 := by omega
    have h2 : a % 4 * 16 + b / 16 < 64 := by omega
    have h3 : b % 16 * 4 < 64 := by omega
    simp [b64Encode, b64Decode, b64CharOf_ne_pad _ h3,
      b64ValOf_b64CharOf _ h1, b64ValOf_b64CharOf _ h2, b64ValOf_b64CharOf _ h3]
    omega
  | a :: b :: c :: d :: rest, h => by
    have ha : a < 256 := h a (by simp)
    have hb : b < 256 := h b (by simp)
    have hc : c < 256 := h c (by simp)
    have h1 : a / 4 < 64 := by omega
    have h2 : a % 4 * 16 + b / 16 < 64 := by omega
    have h3 : b % 16 * 4 + c / 64 < 64 := by omega
    have h4 : c % 64 < 64 := by omega
    have ih := b64_roundtrip (d :: rest) (fun x hx => h x (by simp at hx ⊢; tauto))
    simp [b64Encode, b64Decode, b64CharOf_ne_pad _ h3, b64CharOf_ne_pad _ h4,
      b64ValOf_b64CharOf _ h1, b64ValOf_b64CharOf _ h2,
      b64ValOf_b64CharOf _ h3, b64ValOf_b64CharOf _ h4, ih]
    omega
  | [a, b, c], h => by
    have ha : a < 256 := h a (by simp)
    have hb : b < 256 := h b (by simp)
    have hc : c < 256 := h c (by simp)
    have h1 : a / 4 < 64 := by omega
    have h2 : a % 4 * 16 + b / 16 < 64 := by omega
    have h3 : b % 16 * 4 + c / 64 < 64 := by omega
    have h4 : c % 64 < 64 := by omega
    simp [b64Encode, b64Decode, b64CharOf_ne_pad _ h3, b64CharOf_ne_pad _ h4,
      b64ValOf_b64CharOf _ h1, b64ValOf_b64CharOf _ h2,
      b64ValOf_b64CharOf _ h3, b64ValOf_b64CharOf _ h4]
    omega

/-! ## C4 — metadata codec validation -/

/-- C4 counterexample: a metadata object whose three required fields are
all present (`encryptedKey` bound to the empty string) and whose version
is the supported tag is nevertheless rejected with the missing-fields
error, because the code tests JS truthiness (`!parsed.encryptedKey`),
not absence.  The claim's "otherwise succeeds" fails here. -/
theorem deserialize_rejects_present_empty_field :
    jsonGet (.obj [("version", .str "hybrid-v1"), ("encryptedKey", .str ""),
        ("keyHash", .str "a"), ("iv", .str "b")]) "encryptedKey" = some (.str "")
    ∧ versionMatches (jsonGet (.obj [("version", .str "hybrid-v1"), ("encryptedKey", .str ""),
        ("keyHash", .str "a"), ("iv", .str "b")]) "version") = true
    ∧ deserializeHybridMetadata (.obj [("version", .str "hybrid-v1"), ("encryptedKey", .str ""),
        ("keyHash", .str "a"), ("iv", .str "b")])
      = .error .missingRequiredFields :=
  ⟨rfl, rfl, rfl⟩

/-- C4 (amended): `deserializeHybridMetadata` fails with the
unsupported-version error whenever the `version` field differs from
`hybrid-v1` (that check comes first); with the version tag right it
fails with the missing-fields error when any of `encryptedKey`,
`keyHash`, `iv` is absent or falsy (empty string included); and
otherwise returns the parsed object unchanged, unknown optional
fields preserved. -/
theorem deserialize_validation (j : Json) :
    (versionMatches (jsonGet j "version") = false →
      deserializeHybridMetadata j = .error .unsupportedVersion)
    ∧ (versionMatches (jsonGet j "version") = true →
        (isFalsyField (jsonGet j "encryptedKey") || isFalsyField (jsonGet j "keyHash")
          || isFalsyField (jsonGet j "iv")) = true →
        deserializeHybridMetadata j = .error .missingRequiredFields)
    ∧ (versionMatches (jsonGet j "version") = true →
        isFalsyField (jsonGet j "encryptedKey") = false →
        isFalsyField (jsonGet j "keyHash") = false →
        isFalsyField (jsonGet j "iv") = false →
        deserializeHybridMetadata j = .ok j) := by
  unfold deserializeHybridMetadata
  refine ⟨fun h1 => ?_, fun h1 h2 => ?_, fun h1 h2 h3 h4 => ?_⟩
  · simp [h1]
  · simp [h1, h2]
  · simp [h1, h2, h3, h4]

/-- C4 witness: a well-formed metadata object carrying an unknown extra
field decodes successfully to itself. -/
theorem deserialize_validation_witness :
    deserializeHybridMetadata (.obj [("version", .str "hybrid-v1"), ("encryptedKey", .str "k"),
        ("keyHash", .str "h"), ("iv", .str "i"), ("extra", .num 5)])
      = .ok (.obj [("version", .str "hybrid-v1"), ("encryptedKey", .str "k"),
        ("keyHash", .str "h"), ("iv", .str "i"), ("extra", .num 5)]) :=
  (deserialize_validation _).2.2 rfl rfl rfl rfl

/-! ## C3 — empty access policy rejected before any network call -/

/-- C3 counterexample: a connected encrypt call with an empty policy
list but an absent `data` parameter fails with the missing-data error
(the `!data` check runs first), not with the empty-policy error; the
adapter is still never invoked. -/
theorem litEncrypt_empty_policy_counterexample :
    litWrapperEncrypt true true none (some []) "ethereum" (fun _ _ => some ("c", "h")) "hash"
      = (.error .missingData, false)
    ∧ (.error .missingData : Except LitWrapError LitEncryptResult)
        ≠ .error .missingAccessControlConditions :=
  ⟨rfl, by simp⟩

/-- C3 (amended): when the wrapper is connected, the client handle is
present and the `data` parameter is a non-empty string, an encrypt call
whose access-control-condition list is empty or absent fails with the
missing-accessControlConditions validation error, and the Lit client's
`encrypt` is never invoked (no network call, no key wrapped) — whatever
the client call would have returned. -/
theorem litEncrypt_empty_policy (data : Option String) (s : String)
    (acc : Option (List AccessCondition)) (chain accHash : String)
    (clientEncrypt : List AccessCondition → String → Option (String × String))
    (hdata : data = some s) (hs : s ≠ "")
    (hacc : acc = none ∨ acc = some []) :
    litWrapperEncrypt true true data acc chain clientEncrypt accHash
      = (.error .missingAccessControlConditions, false) := by
  subst hdata
  have hd : ¬(some s = none ∨ some s = some "") := by simp [hs]
  rcases hacc with rfl | rfl <;>
    simp [litWrapperEncrypt, hd, hs]

/-- C3 witness: a concrete connected call with data present and an empty
policy list is rejected without invoking the client. -/
theorem litEncrypt_empty_policy_witness :
    litWrapperEncrypt true true (some "aGk=") (some []) "ethereum"
      (fun _ _ => some ("ct", "h")) "hash"
      = (.error .missingAccessControlConditions, false) :=
  litEncrypt_empty_policy (some "aGk=") "aGk=" (some []) "ethereum" "hash"
    (fun _ _ => some ("ct", "h")) rfl (by decide) (Or.inr rfl)

/-! ## C10 — CID validation and download gating -/

/-- C10 counterexample: the empty-string `cid` parameter trims to a
value `isValidCid` rejects, yet `download` reports the missing-parameter
error (the falsy check `!cid` runs before validation), not the
"Invalid CID format" error the claim names.  No gateway is contacted
either way. -/
theorem download_empty_cid_counterexample :
    isValidCid (jsTrim []) = false
    ∧ synapseDownload true (some []) (some ['p']) (some [1])
        = (.error .missingCid, false)
    ∧ (.error .missingCid : Except DownloadError DownloadResult)
        ≠ .error .invalidCidFormat :=
  ⟨rfl, rfl, by simp⟩

/-- C10 (amended): `isValidCid` accepts exactly the CIDv0 shape (`Qm`
followed by exactly 44 base58 characters) and the CIDv1 shape (`baf`
followed by 55 or more base32 characters); and a connected download call
whose non-empty `cid` parameter trims to a string `isValidCid` rejects
fails with the invalid-CID-format error before any gateway is contacted
(empty `cid`/`outputPath` are reported as missing parameters instead). -/
theorem isValidCid_spec_and_download_gate :
    (∀ s : List Char, isValidCid s = true ↔ cidV0Shape s ∨ cidV1Shape s)
    ∧ (∀ (cidRaw path : List Char) (oc : Option (List Nat)),
        cidRaw ≠ [] → path ≠ [] → isValidCid (jsTrim cidRaw) = false →
        synapseDownload true (some cidRaw) (some path) oc
          = (.error .invalidCidFormat, false)) := by
  constructor
  · intro s
    constructor
    · intro h
      unfold isValidCid at h
      rcases Bool.or_eq_true _ _ |>.mp h with h | h
      · left
        rcases s with _ | ⟨c1, _ | ⟨c2, rest⟩⟩ <;> simp only [] at h
        · cases h
        · cases h
        · simp only [Bool.and_eq_true, decide_eq_true_eq, List.all_eq_true] at h
          obtain ⟨⟨⟨rfl, rfl⟩, h3⟩, h4⟩ := h
          exact ⟨rest, rfl, h3, h4⟩
      · right
        rcases s with _ | ⟨c1, _ | ⟨c2, _ | ⟨c3, rest⟩⟩⟩ <;> simp only [] at h
        · cases h
        · cases h
        · cases h
        · simp only [Bool.and_eq_true, decide_eq_true_eq, List.all_eq_true] at h
          obtain ⟨⟨⟨⟨rfl, rfl⟩, rfl⟩, h4⟩, h5⟩ := h
          exact ⟨rest, rfl, h4, h5⟩
    · intro h
      unfold isValidCid
      rcases h with ⟨t, rfl, hlen, hall⟩ | ⟨t, rfl, hlen, hall⟩ <;>
        simp [hlen, List.all_eq_true.mpr hall]
  · intro cidRaw path oc hcid hpath hinvalid
    unfold synapseDownload
    simp [hcid, hpath, hinvalid]

/-- C10 witness: a malformed CID (valid prefix, wrong length) is
rejected by the validator, and a download of it fails with the
invalid-format error without contacting a gateway; a well-formed CIDv0
is accepted. -/
theorem isValidCid_spec_and_download_gate_witness :
    synapseDownload true (some ['Q', 'm', 'x']) (some ['p']) (some [1, 2])
      = (.error .invalidCidFormat, false)
    ∧ isValidCid ('Q' :: 'm' :: List.replicate 44 'a') = true :=
  ⟨isValidCid_spec_and_download_gate.2 ['Q', 'm', 'x'] ['p'] (some [1, 2])
      (by simp) (by simp) (by decide),
   isValidCid_spec_and_download_gate.1 _ |>.mpr
     (Or.inl ⟨List.replicate 44 'a', rfl, by simp, by decide⟩)⟩

/-! ## C5 — strictly sequential processing, responses in request order -/

theorem handleRequest_ids (methods : String → Option Handler) (req : Request) :
    (handleRequest methods req).map responseIdOf
      = if isNotification req then [] else [idValue req.id] := by
  unfold handleRequest
  cases hm : methods req.method with
  | none => cases hn : isNotification req <;> simp [hn, responseIdOf]
  | some f =>
    cases hfp : f req.params <;> cases hn : isNotification req <;>
      simp [hfp, hn, responseIdOf]

theorem emitted_append (xs ys : List OutMsg) :
    emittedResponseIds (xs ++ ys) = emittedResponseIds xs ++ emittedResponseIds ys := by
  simp [emittedResponseIds]

theorem emitted_map_response : ∀ rs : List Response,
    emittedResponseIds (rs.map .response) = rs.map responseIdOf
  | [] => rfl
  | r :: rs => congrArg (List.cons (responseIdOf r)) (emitted_map_response rs)

theorem emitted_processLine (methods : String → Option Handler) (l : RawLine) :
    emittedResponseIds (processLine methods l) = (lineExpectedId l).toList := by
  cases l with
  | empty => rfl
  | malformed msg => rfl
  | request req =>
    show emittedResponseIds ((handleRequest methods req).map .response) = _
    rw [emitted_map_response, handleRequest_ids]
    cases hn : isNotification req <;> simp [lineExpectedId, hn]

theorem emitted_flatten (methods : String → Option Handler) :
    ∀ lines : List RawLine,
      emittedResponseIds ((lines.map (processLine methods)).flatten)
        = lines.filterMap lineExpectedId
  | [] => rfl
  | l :: ls => by
    simp only [List.map_cons, List.flatten_cons]
    rw [emitted_append, emitted_processLine, emitted_flatten methods ls]
    cases hl : lineExpectedId l <;> simp [List.filterMap_cons, hl]

/-- C5: the main loop emits the `ready` notification and then processes
lines strictly sequentially, so (first conjunct) the ids of the emitted
responses are exactly the per-line owed response ids, in line order, for
every method registry and every input; in particular (second conjunct)
two consecutive `ping` requests with ids 1 and 2 produce the `pong`
response with id 1 strictly before the one with id 2, never interleaved
or reordered. -/
theorem mainLoop_ordering :
    (∀ (methods : String → Option Handler) (lines : List RawLine),
      emittedResponseIds (mainOutputs methods lines) = lines.filterMap lineExpectedId)
    ∧ (∀ (rest : String → Option Handler) (p1 p2 : Json),
        mainOutputs (methodsWith rest)
          [.request { method := "ping", params := p1, id := .idVal (.num 1) },
           .request { method := "ping", params := p2, id := .idVal (.num 2) }]
        = [readyMsg,
           .response (.success (some (.num 1)) (.str "pong")),
           .response (.success (some (.num 2)) (.str "pong"))]) := by
  constructor
  · intro methods lines
    have : emittedResponseIds (mainOutputs methods lines)
        = emittedResponseIds ((lines.map (processLine methods)).flatten) := by
      simp [mainOutputs, emittedResponseIds, readyMsg]
    rw [this, emitted_flatten]
  · intro rest p1 p2
    simp [mainOutputs, processLine, handleRequest, methodsWith, pingHandler,
      isNotification, idValue]

/-! ## C6 — notifications never receive a response -/

/-- C6: a parsed message whose id is absent or `null` is a notification
and gets no response from `handleRequest`, whatever the registry: not a
result response, not a method-not-found error when the method is
unknown, and not an internal error when the handler throws. -/
theorem notification_no_response (methods : String → Option Handler) (req : Request)
    (h : isNotification req = true) : handleRequest methods req = [] := by
  unfold handleRequest
  cases hm : methods req.method with
  | none => simp [h]
  | some f => cases hfp : f req.params <;> simp [hfp, h]

/-- C6 witness: an unknown-method notification with absent id, and a
throwing-handler notification with null id, both produce no output. -/
theorem notification_no_response_witness :
    handleRequest (fun _ => none) { method := "nope.nope", params := .null, id := .absent } = []
    ∧ handleRequest (fun _ => some (fun _ => .error "boom"))
        { method := "lit.encrypt", params := .null, id := .null } = [] :=
  ⟨notification_no_response _ _ rfl, notification_no_response _ _ rfl⟩

/-! ## C7 — handler errors are caught at the dispatcher boundary -/

/-- C7: whenever the looked-up handler throws, `handleRequest` returns
normally (never propagates the exception): with an id present it sends
exactly one internal-error response (code -32603) carrying the error's
message, and for a notification it sends nothing — so the process never
terminates because of a handler error. -/
theorem handler_error_caught (methods : String → Option Handler) (req : Request)
    (f : Handler) (msg : String)
    (hf : methods req.method = some f) (herr : f req.params = .error msg) :
    handleRequest methods req
      = if isNotification req then []
        else [.failure (idValue req.id) { code := -32603, message := msg }] := by
  unfold handleRequest
  simp only [hf, herr]

/-- C7 witness: a throwing handler on a request with id 7 yields exactly
one -32603 error response carrying the message. -/
theorem handler_error_caught_witness :
    handleRequest (fun _ => some (fun _ => .error "boom"))
      { method := "lit.encrypt", params := .null, id := .idVal (.num 7) }
      = [.failure (some (.num 7)) { code := -32603, message := "boom" }] := by
  have h := handler_error_caught (fun _ => some (fun _ => .error "boom"))
    { method := "lit.encrypt", params := .null, id := .idVal (.num 7) }
    (fun _ => .error "boom") "boom" rfl rfl
  simpa [isNotification, idValue] using h

/-! ## C8 — failed connect resets connection state -/

/-- C8 counterexample: a wrapper that had connected successfully (its
session expiry is set to 42) suffers a failing `connect`; the failure
handler clears the flag, client and auth manager, but the session
expiry survives as 42 — it is not cleared, contrary to the claim.  The
wrapper's failure handler also never touches the module globals. -/
theorem connect_failure_counterexample :
    (wrapperConnect ⟨some 1, some 2, true, "naga-dev", some 42, 1⟩
        "datil-dev" 1000 none).fst.sessionExpiry = some 42
    ∧ (wrapperConnect ⟨some 1, some 2, true, "naga-dev", some 42, 1⟩
        "datil-dev" 1000 none).snd = .error "Failed to connect to Lit Protocol"
    ∧ some 42 ≠ (none : Option Nat) :=
  ⟨rfl, rfl, by simp⟩

/-- C8 (amended): whenever `connect` fails, the wrapper's connected
flag, client handle and auth manager are cleared and the error is
rethrown, so `isConnected` reports false afterwards whatever the module
globals hold; the wrapper's session-expiry field is left unchanged (it
is only null when never set), and the module globals are cleared by
`initLitClient`'s own failure handler when the global initialization
itself fails (client, auth manager and in-flight promise all nulled). -/
theorem connect_failure_resets (st : WrapperState) (network : String) (now : Nat) :
    (wrapperConnect st network now none).snd = .error "Failed to connect to Lit Protocol"
    ∧ (wrapperConnect st network now none).fst.isConnectedFlag = false
    ∧ (wrapperConnect st network now none).fst.client = none
    ∧ (wrapperConnect st network now none).fst.authManager = none
    ∧ (wrapperConnect st network now none).fst.sessionExpiry = st.sessionExpiry
    ∧ (∀ g, wrapperIsConnected (wrapperConnect st network now none).fst g = false)
    ∧ initLitClientResolve none
        = { litClient := none, authManager := none, initPromise := none } :=
  ⟨rfl, rfl, rfl, rfl, rfl, fun _ => rfl, rfl⟩

/-! ## C9 — `initLitClient` is idempotent and single-flight -/

/-- C9: a call of `initLitClient` made while the client and auth manager
are both set returns the existing client and changes nothing; a call
made while an initialization is in flight (and the pair is not fully
set) returns that same in-flight promise and changes nothing; and a
fresh initialization is started only when the pair is not fully set and
no initialization is in flight — so the client is never initialized
twice. -/
theorem initLitClient_single_flight (g : LitGlobals) (fp : Nat) :
    (∀ c a, g.litClient = some c → g.authManager = some a →
      initLitClientCall g fp = (g, .existing c))
    ∧ (∀ p, isLitClientConnected g = false → g.initPromise = some p →
        initLitClientCall g fp = (g, .joined p))
    ∧ (∀ g' q, initLitClientCall g fp = (g', .started q) →
        isLitClientConnected g = false ∧ g.initPromise = none
          ∧ q = fp ∧ g' = { g with initPromise := some fp }) := by
  obtain ⟨lc, am, ip⟩ := g
  refine ⟨?_, ?_, ?_⟩
  · rintro c a rfl rfl
    rfl
  · rintro p hconn rfl
    cases lc <;> cases am <;>
      simp_all [isLitClientConnected, initLitClientCall]
  · rintro g' q h
    cases lc <;> cases am <;> cases ip <;>
      simp_all [isLitClientConnected, initLitClientCall] <;>
      exact h.2 ▸ h.1.symm

/-- C9 witness: with both globals set, the existing client (token 3) is
returned and nothing changes; with neither set and a promise (token 5)
in flight, that promise is joined and nothing changes. -/
theorem initLitClient_single_flight_witness :
    initLitClientCall { litClient := some 3, authManager := some 4, initPromise := none } 9
      = ({ litClient := some 3, authManager := some 4, initPromise := none }, .existing 3)
    ∧ initLitClientCall { litClient := none, authManager := none, initPromise := some 5 } 9
      = ({ litClient := none, authManager := none, initPromise := some 5 }, .joined 5) :=
  ⟨(initLitClient_single_flight _ 9).1 3 4 rfl rfl,
   (initLitClient_single_flight _ 9).2.1 5 rfl rfl⟩

/-! ## C1 — hybrid encrypt/decrypt round trip -/

/-- C1: for every plaintext byte sequence, encrypting with
`hybridEncryptFile` (fresh AES key and IV, key wrapped by the adapter)
and decrypting the result under the produced metadata — with the
adapter's unwrap returning the same key bytes (an identity satisfying
the owner-only policy) and AES-GCM opening what it sealed — returns
exactly the plaintext, with both calls zeroing the key, and the
`originalHash` verification in the decrypt path passing (a failed check
would end in the integrity error instead of success). -/
theorem hybrid_roundtrip
    (fileData aesKey iv : List Nat) (walletAddress chain ct kh : String)
    (sha256Hash : List Nat → List Nat)
    (aesEnc : List Nat → List Nat → List Nat → List Nat)
    (aesDecrypt : List Nat → List Nat → List Nat → Option (List Nat))
    (litDecrypt : String → String → Option (List Nat))
    (hiv : ∀ x ∈ iv, x < 256)
    (haead : aesDecrypt (aesEnc fileData aesKey iv) aesKey iv = some fileData)
    (hunwrap : litDecrypt ct kh = some aesKey) :
    ∃ r : HybridEncryptionResult,
      hybridEncryptFileRun fileData aesKey iv walletAddress chain sha256Hash
          (fun d k i => some (aesEnc d k i)) (some ()) (fun _ => some (ct, kh))
        = (.ok r, true)
      ∧ hybridDecryptFileRun r.encryptedFile r.metadata sha256Hash
          (some ()) (some ()) litDecrypt aesDecrypt
        = (.ok fileData, true) := by
  refine ⟨⟨aesEnc fileData aesKey iv,
    ⟨"hybrid-v1", ct, kh, b64Encode iv, "AES-GCM", 256,
     createOwnerOnlyAccessControlConditions walletAddress, chain,
     none, some fileData.length, some (sha256Hash fileData)⟩⟩, rfl, ?_⟩
  simp [hybridDecryptFileRun, hunwrap, b64_roundtrip iv hiv, haead]

/-- C1 witness: a concrete round trip — two-byte plaintext, an
all-zero 12-byte IV, identity stand-ins for the external AES-GCM seal
and open and for the hash, and an adapter whose unwrap hands back the
generated key. -/
theorem hybrid_roundtrip_witness :
    ∃ r : HybridEncryptionResult,
      hybridEncryptFileRun [72, 105] [7] (List.replicate 12 0) "0xAbC" "ethereum"
          (fun d => d) (fun d _ _ => some d) (some ()) (fun _ => some ("ct", "kh"))
        = (.ok r, true)
      ∧ hybridDecryptFileRun r.encryptedFile r.metadata (fun d => d)
          (some ()) (some ()) (fun _ _ => some [7]) (fun c _ _ => some c)
        = (.ok [72, 105], true) :=
  hybrid_roundtrip [72, 105] [7] (List.replicate 12 0) "0xAbC" "ethereum" "ct" "kh"
    (fun d => d) (fun d _ _ => d) (fun c _ _ => some c) (fun _ _ => some [7])
    (by simp) rfl rfl

/-! ## C2 — AES key zeroing on failure paths -/

/-- C2: evaluation of the encryption engine at the failing input the
claim covers — the adapter's wrap call (`client.encrypt`) throws after
the local AES seal succeeded.  `hybridEncryptFile` then returns with
the thrown error and the key-zeroed flag `false`: the `aesKey.fill(0)`
on the success path is never reached, so the local 32-byte AES key is
not zeroed, contradicting the claim (the decrypt path, whose zeroing
sits in a `finally`, does satisfy it). -/
theorem encrypt_key_not_zeroed_on_wrap_failure :
    hybridEncryptFileRun [1, 2, 3] (List.replicate 32 7) (List.replicate 12 0)
        "0xAbC" "ethereum" (fun d => d) (fun d _ _ => some d) (some ()) (fun _ => none)
      = (.error (.externalFailure "litEncrypt"), false)
    ∧ (∀ (encryptedFile : List Nat) (metadata : HybridMeta)
        (sha : List Nat → List Nat) (initOutcome authOutcome : Option Unit)
        (litDecrypt : String → String → Option (List Nat))
        (aesDec : List Nat → List Nat → List Nat → Option (List Nat)),
        (hybridDecryptFileRun encryptedFile metadata sha initOutcome authOutcome
          litDecrypt aesDec).snd = true) := by
  constructor
  · rfl
  · intro encryptedFile metadata sha initOutcome authOutcome litDecrypt aesDec
    unfold hybridDecryptFileRun
    split
    · rfl
    · cases initOutcome with
      | none => rfl
      | some u =>
        cases authOutcome with
        | none => rfl
        | some v =>
          cases hlit : litDecrypt metadata.encryptedKey metadata.keyHash with
          | none => rfl
          | some k =>
            cases haes : aesDec encryptedFile k (b64Decode metadata.iv) with
            | none => simp [haes]
            | some d =>
              cases metadata.originalHash with
              | none => simp [haes]
              | some hh => by_cases hcmp : sha d = hh <;> simp [haes, hcmp]

end Haven
